import Mathlib

/-!
Shallow embedding of `src/dashboard/dashboard.py`, a single-file sales
dashboard.  The script loads a denormalized sales table from a CSV file and
renders four panels: a KPI row (total revenue, average order value, number of
orders), an orders-per-day bar chart over a selectable date range within the
latest purchase year, a top-5 customer-city bar plot, and a payment-type pie
chart.  Records are embedded as a Lean structure, the table as a list of
records, and each aggregation as the corresponding list computation.  Prices
are modelled as exact rationals.
-/

namespace Dashboard

/-- A calendar date (as produced by `pandas.Timestamp.date()`). -/
structure Date where
  year : Int
  month : Nat
  day : Nat
deriving DecidableEq, Repr

/-- Python `date` comparison: lexicographic on (year, month, day). -/
def Date.leB (a b : Date) : Bool :=
  if a.year = b.year then
    if a.month = b.month then a.day ≤ b.day
    else a.month < b.month
  else a.year < b.year

/-- A timestamp (as parsed by `pd.to_datetime`): a date plus a time of day,
the latter kept abstract as seconds since midnight. -/
structure Timestamp where
  date : Date
  secondsOfDay : Nat
deriving DecidableEq, Repr

/-- `pandas` sorts `groupby` keys; date keys are ordered chronologically. -/
def dateLe (a b : Date) : Prop := Date.leB a b = true

instance : DecidableRel dateLe := fun a b => by unfold dateLe; infer_instance

instance : IsTrans Date dateLe where
  trans a b c h1 h2 := by
    unfold dateLe Date.leB at *
    split_ifs at h1 h2 ⊢ <;>
      simp only [decide_eq_true_eq] at * <;> omega

instance : IsTotal Date dateLe where
  total a b := by
    unfold dateLe Date.leB
    split_ifs <;> simp only [decide_eq_true_eq] <;> omega

/-- Lexicographic comparison of character lists by code point — how Python
(and hence `pandas`) orders the string keys of a `groupby`. -/
def strLtCore : List Char → List Char → Bool
  | [], [] => false
  | [], _ :: _ => true
  | _ :: _, [] => false
  | a :: as, b :: bs =>
    if a.toNat < b.toNat then true
    else if b.toNat < a.toNat then false
    else strLtCore as bs

/-- The string order `pandas` sorts `groupby` keys with. -/
def strLe (a b : String) : Prop := strLtCore a.data b.data = true ∨ a = b

instance : DecidableRel strLe := fun a b => by unfold strLe; infer_instance

lemma strLtCore_trans : ∀ as bs cs, strLtCore as bs = true → strLtCore bs cs = true →
    strLtCore as cs = true
  | [], [], _, h1, _ => by simp [strLtCore] at h1
  | _ :: _, [], _, h1, _ => by simp [strLtCore] at h1
  | _, _ :: _, [], _, h2 => by simp [strLtCore] at h2
  | [], _ :: _, _ :: _, _, _ => rfl
  | a :: as, b :: bs, c :: cs, h1, h2 => by
    simp only [strLtCore] at h1 h2 ⊢
    split_ifs at h1 h2 ⊢ with hab hba hbc hcb hac hca
    all_goals first
      | rfl
      | omega
      | (exact strLtCore_trans as bs cs h1 h2)

lemma strLtCore_trichotomy : ∀ as bs,
    strLtCore as bs = true ∨ strLtCore bs as = true ∨ as = bs
  | [], [] => Or.inr (Or.inr rfl)
  | [], _ :: _ => Or.inl rfl
  | _ :: _, [] => Or.inr (Or.inl rfl)
  | a :: as, b :: bs => by
    rcases Nat.lt_trichotomy a.toNat b.toNat with h | h | h
    · exact Or.inl (by simp [strLtCore, h])
    · have hab : a = b := Char.eq_of_val_eq (UInt32.toNat.inj h)
      subst hab
      rcases strLtCore_trichotomy as bs with h' | h' | h'
      · exact Or.inl (by simp [strLtCore, h'])
      · exact Or.inr (Or.inl (by simp [strLtCore, h']))
      · exact Or.inr (Or.inr (by rw [h']))
    · exact Or.inr (Or.inl (by simp [strLtCore, h, Nat.lt_asymm h]))

instance : IsTrans String strLe where
  trans a b c h1 h2 := by
    rcases h1 with h1 | h1
    · rcases h2 with h2 | h2
      · exact Or.inl (strLtCore_trans _ _ _ h1 h2)
      · subst h2; exact Or.inl h1
    · subst h1; exact h2

instance : IsTotal String strLe where
  total a b := by
    rcases strLtCore_trichotomy a.data b.data with h | h | h
    · exact Or.inl (Or.inl h)
    · exact Or.inr (Or.inl h)
    · refine Or.inl (Or.inr ?_)
      cases a; cases b; simp_all [String.data]

/-- One record of the denormalized table `dashboard/main_data.csv`, with the
columns the dashboard reads. -/
structure SalesRecord where
  order_id : String
  customer_unique_id : String
  customer_city : String
  order_purchase_timestamp : Timestamp
  order_delivered_customer_date : Timestamp
  total_price : ℚ
  payment_type : String
deriving DecidableEq, Repr

/-- The in-memory table `datas` (after the `pd.to_datetime` conversions). -/
abbrev Table := List SalesRecord

/-! ### KPI panel: `display_dashboard_kpis` -/

/-- `datas["total_price"].sum()` — the total sales revenue. -/
def total_sales_revenue (t : Table) : ℚ :=
  (t.map (·.total_price)).sum

/-- The distinct `order_id` values of the table, in the sorted key order of
`groupby("order_id")`. -/
def orderIds (t : Table) : List String :=
  ((t.map (·.order_id)).dedup).insertionSort strLe

/-- `datas.groupby("order_id")["total_price"].sum()` at one key: the sum of
`total_price` over the records of that order. -/
def orderTotal (t : Table) (oid : String) : ℚ :=
  ((t.filter (fun r => r.order_id == oid)).map (·.total_price)).sum

/-- The per-order totals, one entry per distinct `order_id`. -/
def perOrderTotals (t : Table) : List ℚ :=
  (orderIds t).map (orderTotal t)

/-- `datas["order_id"].nunique()` — the number of distinct orders. -/
def number_of_orders (t : Table) : Nat :=
  (orderIds t).length

/-- Python's builtin `round` on an exact value: round half to even. -/
def pythonRound (q : ℚ) : ℤ :=
  let f : ℤ := ⌊q⌋
  let frac : ℚ := q - (f : ℚ)
  if frac < 1/2 then f
  else if frac > 1/2 then f + 1
  else if f % 2 = 0 then f else f + 1

/-- `round(datas.groupby("order_id")["total_price"].sum().mean())` — the
"Average Order Value" KPI: the mean of the per-order totals, rounded. -/
def average_order_value (t : Table) : ℤ :=
  pythonRound ((perOrderTotals t).sum / ((perOrderTotals t).length : ℚ))

/-! ### Orders-per-day panel: `display_orders_per_day_latest_year` -/

/-- `datas["order_purchase_timestamp"].dt.year.max()` — the latest purchase
year (`pandas` returns NaN on an empty table; we take `0` there, and every
theorem about this panel holds for whatever value is used uniformly). -/
def latest_year (t : Table) : Int :=
  (t.map (fun r => r.order_purchase_timestamp.date.year)).foldr max 0

/-- `datas[datas["order_purchase_timestamp"].dt.year == latest_year]` —
the records of the latest purchase year (boolean-mask indexing returns a
copy, leaving `datas` untouched). -/
def latest_year_orders (t : Table) : Table :=
  t.filter (fun r => r.order_purchase_timestamp.date.year == latest_year t)

/-- January 1 of a year — `pd.to_datetime(f"{latest_year}-01-01")`, the
`min_value` of the date-range widget. -/
def start_date (y : Int) : Date := ⟨y, 1, 1⟩

/-- December 31 of a year — `pd.to_datetime(f"{latest_year}-12-31")`, the
`max_value` of the date-range widget. -/
def end_date (y : Int) : Date := ⟨y, 12, 31⟩

/-- Modelled from the spec: the contract of the `st.date_input` widget
(library code, not in the repository): with `min_value` and `max_value` set,
the selector admits exactly the dates between those two bounds. -/
def date_input_admits (minV maxV d : Date) : Prop :=
  Date.leB minV d ∧ Date.leB d maxV

/-- A record of `latest_year_orders` after the column assignment
`latest_year_orders["order_purchase_date"] = ...dt.date`: the original
record extended with its purchase date.  The assignment mutates the copy
`latest_year_orders`, never `datas`. -/
structure ExtRecord extends SalesRecord where
  order_purchase_date : Date
deriving DecidableEq, Repr

/-- The column assignment: extend every record of the (copied) frame with
its purchase date. -/
def addPurchaseDateColumn (l : Table) : List ExtRecord :=
  l.map (fun r => ⟨r, r.order_purchase_timestamp.date⟩)

/-- The records within the selected date range `[s, e]`. -/
def filtered_orders (t : Table) (s e : Date) : List ExtRecord :=
  (addPurchaseDateColumn (latest_year_orders t)).filter
    (fun r => Date.leB s r.order_purchase_date && Date.leB r.order_purchase_date e)

/-- `filtered_orders.groupby(...["order_purchase_date"]).size()` — for each
distinct purchase date (in sorted key order), the number of records on that
date. -/
def orders_per_day (t : Table) (s e : Date) : List (Date × Nat) :=
  ((((filtered_orders t s e).map (·.order_purchase_date)).dedup).insertionSort
      dateLe).map
    (fun d => (d, ((filtered_orders t s e).filter
      (fun r => r.order_purchase_date == d)).length))

/-- The routine body given an already-unpacked two-date selection, returned
together with the module table it leaves behind (it only reads `datas`;
the column assignment hits the copy `latest_year_orders`). -/
def display_orders_per_day_latest_year (datas : Table) (s e : Date) :
    List (Date × Nat) × Table :=
  (orders_per_day datas s e, datas)

/-- The routine as actually written: the widget hands back a tuple
`selected_date_range` of one or two dates, and the code indexes it at
positions 0 and 1 with no length check.  A missing index is a Python
`IndexError`, embedded as `none`. -/
def display_orders_per_day_unchecked (datas : Table) (sel : List Date) :
    Option (List (Date × Nat)) :=
  match sel[0]?, sel[1]? with
  | some s, some e => some (orders_per_day datas s e)
  | _, _ => none

/-! ### Demographic panel: `display_customer_demographic` -/

/-- The distinct `customer_city` keys of the `groupby`, in sorted key
order. -/
def cities (t : Table) : List String :=
  ((t.map (·.customer_city)).dedup).insertionSort strLe

/-- `groupby("customer_city")["customer_unique_id"].nunique()` at one city:
the number of distinct customers of that city. -/
def distinctCustomersOfCity (t : Table) (c : String) : Nat :=
  ((t.filter (fun r => r.customer_city == c)).map (·.customer_unique_id)).dedup.length

/-- The `customer_city_count` frame (after the rename to `total_users`):
one `(city, distinct-customer count)` row per distinct city. -/
def customer_city_count (t : Table) : List (String × Nat) :=
  (cities t).map (fun c => (c, distinctCustomersOfCity t c))

/-- The descending-by-count order used by
`sort_values(by="total_users", ascending=False)`. -/
def byTotalUsersDesc (a b : String × Nat) : Prop :=
  b.2 ≤ a.2

instance : DecidableRel byTotalUsersDesc := fun a b => by
  unfold byTotalUsersDesc; infer_instance

instance : IsTrans (String × Nat) byTotalUsersDesc where
  trans _ _ _ h1 h2 := le_trans h2 h1

instance : IsTotal (String × Nat) byTotalUsersDesc where
  total a b := (le_total b.2 a.2).imp id id

/-- `customer_city_count.sort_values(by="total_users", ascending=False).head(5)`
— the (at most) five rows with the largest distinct-customer counts.  (The
variable is named `top_10_cities` in the source but takes `head(5)`.) -/
def top_10_cities (t : Table) : List (String × Nat) :=
  ((customer_city_count t).insertionSort byTotalUsersDesc).take 5

/-! ### Payment panel: `display_payment_distribution` -/

/-- The distinct `payment_type` keys of the `groupby`, in sorted key
order. -/
def paymentTypes (t : Table) : List String :=
  ((t.map (·.payment_type)).dedup).insertionSort strLe

/-- `datas.groupby("payment_type").size().reset_index(name="counts")` — one
`(payment type, record count)` row per distinct payment type. -/
def payment_counts (t : Table) : List (String × Nat) :=
  (paymentTypes t).map (fun p => (p, (t.filter (fun r => r.payment_type == p)).length))

/-- `payment_counts[payment_counts["payment_type"] != "not_defined"]`. -/
def filtered_payment_type (t : Table) : List (String × Nat) :=
  (payment_counts t).filter (fun p => p.1 != "not_defined")

/-- The fixed slice palette `colors` passed to `plt.pie`. -/
def pieColors : List String :=
  ["lightcoral", "lightskyblue", "lightpink", "lightseagreen"]

/-- The pie slices: labels come from `filtered_payment_type["payment_type"]`
in group order, colors from the fixed palette, cycled (matplotlib cycles the
`colors` list when there are more slices). -/
def pie_slices (t : Table) : List (String × String) :=
  (filtered_payment_type t).enum.map
    (fun p => (p.2.1, (pieColors[p.1 % 4]?).getD ""))

/-- The fractions matplotlib renders via `autopct`: each slice's count over
the sum of all slice counts. -/
def pie_shares (t : Table) : List ℚ :=
  (filtered_payment_type t).map
    (fun p => (p.2 : ℚ) / (((filtered_payment_type t).map (·.2)).sum : ℚ))

/-- The four hard-coded legend rows rendered with `st.markdown(svg(...))`,
in on-page order with their fixed colors. -/
def legendEntries : List (String × String) :=
  [("credit_card", "lightcoral"), ("boleto", "lightskyblue"),
   ("voucher", "lightpink"), ("debit_card", "lightseagreen")]

/-- What `display_payment_distribution` puts on the page: the legend rows
and the pie slices, each as (label, color) pairs. -/
structure PaymentDisplay where
  legend : List (String × String)
  slices : List (String × String)
deriving DecidableEq, Repr

/-- `display_payment_distribution`, returned with the table it leaves
behind. -/
def display_payment_distribution (datas : Table) : PaymentDisplay × Table :=
  ({ legend := legendEntries, slices := pie_slices datas }, datas)

/-! ### The remaining display routines with the table threaded through.
Every `pandas` operation the script performs on `datas` (column selection,
`groupby`, boolean-mask indexing) returns a fresh object; the one in-place
column assignment targets the mask copy `latest_year_orders`.  Each routine
therefore hands the module table back unchanged. -/

/-- `display_dashboard_kpis`: the three KPI values, with the table it
leaves behind. -/
def display_dashboard_kpis (datas : Table) : (ℚ × ℤ × Nat) × Table :=
  ((total_sales_revenue datas, average_order_value datas, number_of_orders datas),
   datas)

/-- `display_customer_demographic`: the plotted bars, with the table it
leaves behind. -/
def display_customer_demographic (datas : Table) : List (String × Nat) × Table :=
  (top_10_cities datas, datas)

/-! ### Run environment, for the purity claim.  The script's module state
consists of the loaded table plus presentation-only globals (the seaborn
theme, the page configuration); each display routine reads only `datas`. -/

/-- The module-level state of `dashboard.py`. -/
structure Env where
  datas : Table
  seabornTheme : String
  pageTitle : String
  pageIcon : String

/-- The KPI aggregates a run with environment `e` displays. -/
def kpisOfRun (e : Env) : ℚ × ℤ × Nat :=
  (display_dashboard_kpis e.datas).1

/-- The orders-per-day bars a run with environment `e` and selection
`(s, e)` displays. -/
def ordersOfRun (e : Env) (s e' : Date) : List (Date × Nat) :=
  (display_orders_per_day_latest_year e.datas s e').1

/-- The demographic bars a run with environment `e` displays. -/
def demographicOfRun (e : Env) : List (String × Nat) :=
  (display_customer_demographic e.datas).1

/-- The payment panel a run with environment `e` displays. -/
def paymentOfRun (e : Env) : PaymentDisplay :=
  (display_payment_distribution e.datas).1

/-! ### Small concrete tables used to instantiate the theorems -/

/-- A one-record table whose single order totals half a dollar. -/
def exTableC1 : Table :=
  [{ order_id := "o1", customer_unique_id := "u1", customer_city := "city_a",
     order_purchase_timestamp := ⟨⟨2017, 5, 3⟩, 60⟩,
     order_delivered_customer_date := ⟨⟨2017, 5, 10⟩, 0⟩,
     total_price := 1/2, payment_type := "credit_card" }]

/-- A template record for building small tables. -/
def baseRec : SalesRecord :=
  { order_id := "o1", customer_unique_id := "u1", customer_city := "city_a",
    order_purchase_timestamp := ⟨⟨2017, 5, 3⟩, 60⟩,
    order_delivered_customer_date := ⟨⟨2017, 5, 10⟩, 0⟩,
    total_price := 10, payment_type := "credit_card" }

/-- A six-record table with six distinct cities and customers. -/
def exTable6 : Table :=
  [{ baseRec with order_id := "o1", customer_unique_id := "u1", customer_city := "a" },
   { baseRec with order_id := "o2", customer_unique_id := "u2", customer_city := "b" },
   { baseRec with order_id := "o3", customer_unique_id := "u3", customer_city := "c" },
   { baseRec with order_id := "o4", customer_unique_id := "u4", customer_city := "d" },
   { baseRec with order_id := "o5", customer_unique_id := "u5", customer_city := "e" },
   { baseRec with order_id := "o6", customer_unique_id := "u6", customer_city := "f" }]

/-- A table where one order (`"o1"`) spans two records on the same day. -/
def exTable2o : Table :=
  [baseRec, { baseRec with total_price := 5 }]

/-- Two run environments holding the same table but different
presentation globals. -/
def envA : Env := ⟨exTable6, "dark", "Sales Dashboard", "📈"⟩

/-- See `envA`. -/
def envB : Env := ⟨exTable6, "white", "Other Title", "x"⟩

/-! ### Helper lemmas: summing a list groupwise -/

lemma sum_map_indicator {K M : Type} [DecidableEq K] [AddCommMonoid M]
    (k : K) (v : M) :
    ∀ keys : List K, k ∈ keys → keys.Nodup →
      (keys.map (fun x => if k = x then v else 0)).sum = v
  | [], h, _ => absurd h (List.not_mem_nil k)
  | a :: as, h, hnd => by
    rcases List.mem_cons.mp h with rfl | h'
    · have hz : ∀ y ∈ as.map (fun x => if k = x then v else 0), y = 0 := by
        intro y hy
        rcases List.mem_map.mp hy with ⟨x, hx, rfl⟩
        have hkx : k ≠ x := fun e => (List.nodup_cons.mp hnd).1 (e ▸ hx)
        simp [hkx]
      simp [List.sum_eq_zero hz]
    · have hka : k ≠ a := fun e => (List.nodup_cons.mp hnd).1 (e ▸ h')
      have := sum_map_indicator k v as h' (List.nodup_cons.mp hnd).2
      simp [hka, this]

lemma sum_over_groups {R K M : Type} [DecidableEq K] [AddCommMonoid M]
    (key : R → K) (f : R → M) :
    ∀ (l : List R) (keys : List K), keys.Nodup → (∀ r ∈ l, key r ∈ keys) →
      (keys.map (fun k => ((l.filter (fun r => key r == k)).map f).sum)).sum
        = (l.map f).sum
  | [], keys, _, _ => by simp
  | r :: l, keys, hnd, hcov => by
    have hrec := sum_over_groups key f l keys hnd
      (fun x hx => hcov x (List.mem_cons_of_mem _ hx))
    have hsplit : ∀ k : K,
        (((r :: l).filter (fun x => key x == k)).map f).sum
          = (if key r = k then f r else 0)
            + ((l.filter (fun x => key x == k)).map f).sum := by
      intro k
      by_cases h : key r = k <;> simp [List.filter_cons, h]
    calc (keys.map (fun k => (((r :: l).filter (fun x => key x == k)).map f).sum)).sum
        = (keys.map (fun k => (if key r = k then f r else 0)
            + ((l.filter (fun x => key x == k)).map f).sum)).sum := by
          rw [List.map_congr_left (fun k _ => hsplit k)]
      _ = (keys.map (fun k => if key r = k then f r else 0)).sum
            + (keys.map (fun k => ((l.filter (fun x => key x == k)).map f).sum)).sum := by
          rw [List.sum_map_add]
      _ = f r + (l.map f).sum := by
          rw [hrec, sum_map_indicator (key r) (f r) keys (hcov r (List.mem_cons_self r l)) hnd]
      _ = ((r :: l).map f).sum := by simp

lemma sum_map_ones {R : Type} (l : List R) :
    (l.map (fun _ => (1 : ℕ))).sum = l.length := by
  induction l with
  | nil => rfl
  | cons a l ih => simp [ih, Nat.add_comm]

/-- The distinct `order_id` keys are free of duplicates. -/
lemma nodup_orderIds (t : Table) : (orderIds t).Nodup :=
  (List.perm_insertionSort strLe _).symm.nodup (List.nodup_dedup _)

/-- Every record's `order_id` appears among the `groupby` keys. -/
lemma mem_orderIds {t : Table} {r : SalesRecord} (hr : r ∈ t) :
    r.order_id ∈ orderIds t :=
  (List.perm_insertionSort strLe _).mem_iff.mpr
    (List.mem_dedup.mpr (List.mem_map_of_mem _ hr))

/-- The per-order totals sum to the total revenue. -/
lemma perOrderTotals_sum (t : Table) :
    (perOrderTotals t).sum = total_sales_revenue t := by
  unfold perOrderTotals orderTotal total_sales_revenue
  exact sum_over_groups (fun r => r.order_id) (fun r => r.total_price) t
    (orderIds t) (nodup_orderIds t) (fun r hr => mem_orderIds hr)

/-- There are as many per-order totals as distinct orders. -/
lemma length_perOrderTotals (t : Table) :
    (perOrderTotals t).length = number_of_orders t := by
  simp [perOrderTotals, number_of_orders]

/-- The AOV KPI is the rounded ratio of revenue to distinct orders. -/
lemma avg_eq_round (t : Table) :
    average_order_value t
      = pythonRound (total_sales_revenue t / (number_of_orders t : ℚ)) := by
  unfold average_order_value
  rw [perOrderTotals_sum, length_perOrderTotals]

/-- The distinct `payment_type` keys are free of duplicates. -/
lemma nodup_paymentTypes (t : Table) : (paymentTypes t).Nodup :=
  (List.perm_insertionSort strLe _).symm.nodup (List.nodup_dedup _)

/-- Every record's `payment_type` appears among the `groupby` keys. -/
lemma mem_paymentTypes {t : Table} {r : SalesRecord} (hr : r ∈ t) :
    r.payment_type ∈ paymentTypes t :=
  (List.perm_insertionSort strLe _).mem_iff.mpr
    (List.mem_dedup.mpr (List.mem_map_of_mem _ hr))

/-- The filtered per-type counts sum to the number of records whose payment
type is not `"not_defined"`. -/
lemma payment_counts_sum (t : Table) :
    ((filtered_payment_type t).map (·.2)).sum
      = (t.filter (fun r => r.payment_type != "not_defined")).length := by
  have hkeys : filtered_payment_type t
      = ((paymentTypes t).filter (fun k => k != "not_defined")).map
          (fun p => (p, (t.filter (fun r => r.payment_type == p)).length)) := by
    unfold filtered_payment_type payment_counts
    rw [List.filter_map]
    rfl
  rw [hkeys, List.map_map]
  have hcnt : ∀ k ∈ (paymentTypes t).filter (fun k => k != "not_defined"),
      ((·.2) ∘ fun p : String =>
        (p, (t.filter (fun r => r.payment_type == p)).length)) k
        = (((t.filter (fun r => r.payment_type != "not_defined")).filter
            (fun r => r.payment_type == k)).map (fun _ => (1 : ℕ))).sum := by
    intro k hk
    have hknd : (k != "not_defined") = true := (List.mem_filter.mp hk).2
    show (t.filter (fun r => r.payment_type == k)).length = _
    rw [sum_map_ones, List.filter_filter]
    apply congrArg
    apply List.filter_congr
    intro r _
    cases hrk : (r.payment_type == k) with
    | false => simp
    | true =>
      have hr : r.payment_type = k := by simpa using hrk
      simp [hr, hknd]
  rw [List.map_congr_left hcnt]
  exact (sum_over_groups (fun r => r.payment_type) (fun _ => (1 : ℕ))
    (t.filter (fun r => r.payment_type != "not_defined"))
    ((paymentTypes t).filter (fun k => k != "not_defined"))
    ((nodup_paymentTypes t).filter _)
    (fun r hr => List.mem_filter.mpr
      ⟨mem_paymentTypes (List.mem_filter.mp hr).1,
       (List.mem_filter.mp hr).2⟩)).trans (sum_map_ones _)

/-- The bar value of a chart date counts the table records of the latest
year, inside the selected range, on that date. -/
lemma length_filter_orders (t : Table) (s e d : Date) :
    ((filtered_orders t s e).filter (fun r => r.order_purchase_date == d)).length
      = (t.filter (fun r =>
          (r.order_purchase_timestamp.date == d)
          && ((Date.leB s r.order_purchase_timestamp.date
               && Date.leB r.order_purchase_timestamp.date e)
              && (r.order_purchase_timestamp.date.year == latest_year t)))).length := by
  unfold filtered_orders addPurchaseDateColumn latest_year_orders
  rw [List.filter_map, List.filter_map, List.length_map,
    List.filter_filter, List.filter_filter]
  congr 1
  apply List.filter_congr
  intro r _
  simp [Function.comp, Bool.and_assoc]

/-- Membership in the orders-per-day chart: a `(date, count)` pair is shown
iff the count is positive and counts the filtered records on that date. -/
lemma mem_orders_per_day (t : Table) (s e d : Date) (n : ℕ) :
    (d, n) ∈ orders_per_day t s e ↔
      0 < n ∧ n = ((filtered_orders t s e).filter
        (fun r => r.order_purchase_date == d)).length := by
  unfold orders_per_day
  constructor
  · intro h
    obtain ⟨d', hd', heq⟩ := List.mem_map.mp h
    injection heq with h1 h2
    rw [h1] at hd' h2
    refine ⟨?_, h2.symm⟩
    have hd'' : d ∈ (filtered_orders t s e).map (·.order_purchase_date) :=
      List.mem_dedup.mp ((List.perm_insertionSort dateLe _).mem_iff.mp hd')
    obtain ⟨r, hr, hrd⟩ := List.mem_map.mp hd''
    have hrf : r ∈ (filtered_orders t s e).filter
        (fun r => r.order_purchase_date == d) :=
      List.mem_filter.mpr ⟨hr, by simp [hrd]⟩
    rw [← h2]
    exact List.length_pos.mpr (fun he => by simp [he] at hrf)
  · rintro ⟨hpos, hn⟩
    have hex : ∃ r, r ∈ (filtered_orders t s e).filter
        (fun r => r.order_purchase_date == d) :=
      List.exists_mem_of_length_pos (hn ▸ hpos)
    obtain ⟨r, hrmem⟩ := hex
    obtain ⟨hrF, hrd⟩ := List.mem_filter.mp hrmem
    have hrd' : r.order_purchase_date = d := by simpa using hrd
    have hdm : d ∈ (((filtered_orders t s e).map
        (·.order_purchase_date)).dedup).insertionSort dateLe :=
      (List.perm_insertionSort dateLe _).mem_iff.mpr
        (List.mem_dedup.mpr (hrd' ▸ List.mem_map_of_mem _ hrF))
    exact List.mem_map.mpr ⟨d, hdm, by rw [hn]⟩

/-- Labels of the pie slices are exactly the filtered payment types, in
group order. -/
lemma pie_labels (t : Table) :
    (pie_slices t).map Prod.fst = (filtered_payment_type t).map Prod.fst := by
  unfold pie_slices
  rw [List.map_map]
  rw [show (Prod.fst ∘ fun p : ℕ × (String × Nat) =>
      (p.2.1, (pieColors[p.1 % 4]?).getD ""))
    = (Prod.fst ∘ Prod.snd) from rfl]
  rw [← List.map_map, List.enum_map_snd]

/-- When exactly four payment types survive the filter, the pie pairs them
with the palette in order. -/
lemma pie_slices_of_four (t : Table) (p0 p1 p2 p3 : String × Nat)
    (h : filtered_payment_type t = [p0, p1, p2, p3]) :
    pie_slices t = [(p0.1, "lightcoral"), (p1.1, "lightskyblue"),
                    (p2.1, "lightpink"), (p3.1, "lightseagreen")] := by
  unfold pie_slices
  rw [h]
  rfl

/-! ### Claim theorems -/

/-- C5: total revenue equals the sum of per-order totals — the sum of
`total_price` over all records equals the sum, over the distinct `order_id`
values, of the sum of `total_price` within each order. -/
theorem total_revenue_eq_sum_per_order_totals (t : Table) :
    total_sales_revenue t = ((orderIds t).map (orderTotal t)).sum :=
  (perOrderTotals_sum t).symm

/-- C1 (counterexample): the Average Order Value KPI does **not** equal total
revenue divided by the distinct order count on a one-record table whose only
total is 1/2 — the code rounds the mean to an integer before displaying. -/
theorem average_order_value_ne_ratio :
    ¬ ((average_order_value exTableC1 : ℚ)
        = total_sales_revenue exTableC1 / (number_of_orders exTableC1 : ℚ)) := by
  have htot : total_sales_revenue exTableC1 = 1/2 := by
    simp [total_sales_revenue, exTableC1]
  have hnum : number_of_orders exTableC1 = 1 := by decide
  have havg : average_order_value exTableC1 = 0 := by
    rw [avg_eq_round, htot, hnum]
    norm_num [pythonRound]
  rw [havg, htot, hnum]
  norm_num

/-- C1 (amended): for every table with at least one record, the Average
Order Value KPI equals total revenue divided by the distinct order count,
rounded to the nearest integer with Python's `round` (ties to even). -/
theorem average_order_value_eq_rounded_ratio (t : Table) (_h : t ≠ []) :
    average_order_value t
      = pythonRound (total_sales_revenue t / (number_of_orders t : ℚ)) :=
  avg_eq_round t

/-- Witness for the amended C1 theorem at a concrete one-record table. -/
theorem average_order_value_eq_rounded_ratio_witness :
    exTableC1 ≠ [] ∧
    average_order_value exTableC1
      = pythonRound (total_sales_revenue exTableC1 / (number_of_orders exTableC1 : ℚ)) :=
  ⟨by decide, average_order_value_eq_rounded_ratio exTableC1 (by decide)⟩

/-- C2: the loaded table is immutable input — each display routine hands the
module table back exactly as it was before the call (the one column
assignment in the orders-per-day routine hits the boolean-mask copy
`latest_year_orders`, never `datas`). -/
theorem display_routines_leave_table_unchanged (t : Table) (s e : Date) :
    (display_dashboard_kpis t).2 = t ∧
    (display_orders_per_day_latest_year t s e).2 = t ∧
    (display_customer_demographic t).2 = t ∧
    (display_payment_distribution t).2 = t :=
  ⟨rfl, rfl, rfl, rfl⟩

/-- C7: every display routine is a pure function of the in-memory table
(plus, for the orders-per-day panel, the selected range): two runs whose
environments hold equal tables compute equal aggregates, whatever their
other module globals are. -/
theorem display_routines_pure_in_table (e1 e2 : Env) (s e' : Date)
    (h : e1.datas = e2.datas) :
    kpisOfRun e1 = kpisOfRun e2 ∧
    ordersOfRun e1 s e' = ordersOfRun e2 s e' ∧
    demographicOfRun e1 = demographicOfRun e2 ∧
    paymentOfRun e1 = paymentOfRun e2 := by
  unfold kpisOfRun ordersOfRun demographicOfRun paymentOfRun
  rw [h]
  exact ⟨rfl, rfl, rfl, rfl⟩

/-- Witness for C7 at two concrete environments with equal tables but
different presentation globals. -/
theorem display_routines_pure_in_table_witness :
    envA.datas = envB.datas ∧
    (kpisOfRun envA = kpisOfRun envB ∧
     ordersOfRun envA (start_date 2017) (end_date 2017)
       = ordersOfRun envB (start_date 2017) (end_date 2017) ∧
     demographicOfRun envA = demographicOfRun envB ∧
     paymentOfRun envA = paymentOfRun envB) :=
  ⟨rfl, display_routines_pure_in_table envA envB
    (start_date 2017) (end_date 2017) rfl⟩

/-- C9: the routine indexes the date selection at positions 0 and 1 with no
length check — on a one-element selection the access at position 1 is out of
bounds and the routine fails (`none`) instead of rendering, while a
two-element selection renders the chart. -/
theorem one_element_selection_fails (t : Table) (sel : List Date)
    (d1 d2 : Date) (h : sel.length = 1) :
    display_orders_per_day_unchecked t sel = none ∧
    display_orders_per_day_unchecked t [d1, d2]
      = some (orders_per_day t d1 d2) := by
  obtain ⟨a, rfl⟩ := List.length_eq_one.mp h
  exact ⟨rfl, rfl⟩

/-- Witness for C9 at a concrete table and one-element selection. -/
theorem one_element_selection_fails_witness :
    ([start_date 2017].length = 1) ∧
    (display_orders_per_day_unchecked exTable2o [start_date 2017] = none ∧
     display_orders_per_day_unchecked exTable2o [start_date 2017, end_date 2017]
       = some (orders_per_day exTable2o (start_date 2017) (end_date 2017))) :=
  ⟨rfl, one_element_selection_fails exTable2o [start_date 2017]
    (start_date 2017) (end_date 2017) rfl⟩

/-- C3: the demographic panel shows the top-5 cities sorted descending by
distinct-customer count — at most five rows, in non-increasing order of the
distinct `customer_unique_id` count, every shown row is a city row of the
data with its distinct-customer count, and no city left out beats a shown
one. -/
theorem top5_cities_sorted_desc (t : Table) (p q : String × Nat)
    (hp : p ∈ top_10_cities t) (hq : q ∈ customer_city_count t)
    (hq5 : q ∉ top_10_cities t) :
    (top_10_cities t).length ≤ 5 ∧
    List.Pairwise (fun a b : String × Nat => b.2 ≤ a.2) (top_10_cities t) ∧
    p ∈ customer_city_count t ∧
    p.2 = distinctCustomersOfCity t p.1 ∧
    q.2 ≤ p.2 := by
  unfold top_10_cities at hp hq5 ⊢
  have hsorted : List.Pairwise byTotalUsersDesc
      ((customer_city_count t).insertionSort byTotalUsersDesc) :=
    List.sorted_insertionSort byTotalUsersDesc (customer_city_count t)
  have hpcc : p ∈ customer_city_count t :=
    (List.perm_insertionSort byTotalUsersDesc _).mem_iff.mp
      ((List.take_sublist 5 _).subset hp)
  refine ⟨List.length_take_le 5 _,
    List.Pairwise.sublist (List.take_sublist 5 _) hsorted, hpcc, ?_, ?_⟩
  · obtain ⟨c, _, rfl⟩ := List.mem_map.mp hpcc
    rfl
  · have hqL : q ∈ (customer_city_count t).insertionSort byTotalUsersDesc :=
      (List.perm_insertionSort byTotalUsersDesc _).mem_iff.mpr hq
    have hsplit := List.take_append_drop 5
      ((customer_city_count t).insertionSort byTotalUsersDesc)
    have hqdrop : q ∈ ((customer_city_count t).insertionSort byTotalUsersDesc).drop 5 := by
      rcases List.mem_append.mp (by rw [hsplit]; exact hqL) with h' | h'
      · exact absurd h' hq5
      · exact h'
    have hsorted' : List.Pairwise byTotalUsersDesc
        (((customer_city_count t).insertionSort byTotalUsersDesc).take 5
          ++ ((customer_city_count t).insertionSort byTotalUsersDesc).drop 5) := by
      rw [hsplit]
      exact hsorted
    exact (List.pairwise_append.mp hsorted').2.2 p hp q hqdrop

/-- Witness for C3 at a six-city table: city "a" is shown, city "f" is not,
and the conclusions hold there. -/
theorem top5_cities_sorted_desc_witness :
    (("a", 1) ∈ top_10_cities exTable6 ∧
     ("f", 1) ∈ customer_city_count exTable6 ∧
     ("f", 1) ∉ top_10_cities exTable6) ∧
    ((top_10_cities exTable6).length ≤ 5 ∧
     List.Pairwise (fun a b : String × Nat => b.2 ≤ a.2) (top_10_cities exTable6) ∧
     ("a", 1) ∈ customer_city_count exTable6 ∧
     1 = distinctCustomersOfCity exTable6 "a" ∧
     1 ≤ 1) :=
  ⟨by decide, top5_cities_sorted_desc exTable6 ("a", 1) ("f", 1)
    (by decide) (by decide) (by decide)⟩

/-- C4: the pie shares — each remaining payment type's record count over the
total record count across all payment types other than `"not_defined"` —
sum to exactly 1 whenever some record has a payment type other than
`"not_defined"`. -/
theorem pie_shares_sum_to_one (t : Table)
    (h : ∃ r ∈ t, r.payment_type ≠ "not_defined") :
    (pie_shares t).sum = 1 := by
  have h1 : (pie_shares t).sum
      = ((filtered_payment_type t).map (fun p => (p.2 : ℚ))).sum
          * ((((filtered_payment_type t).map (·.2)).sum : ℚ))⁻¹ := by
    unfold pie_shares
    rw [← List.sum_map_mul_right]
    apply congrArg
    apply List.map_congr_left
    intro p _
    rw [div_eq_mul_inv]
  have h2 : ((filtered_payment_type t).map (fun p => (p.2 : ℚ))).sum
      = ((((filtered_payment_type t).map (·.2)).sum : ℕ) : ℚ) := by
    rw [Nat.cast_list_sum, List.map_map]
    rfl
  have hS_pos : 0 < ((filtered_payment_type t).map (·.2)).sum := by
    rw [payment_counts_sum]
    obtain ⟨r, hr, hrnd⟩ := h
    have hmem : r ∈ t.filter (fun r => r.payment_type != "not_defined") :=
      List.mem_filter.mpr ⟨hr, by simpa using hrnd⟩
    exact List.length_pos.mpr (fun he => by simp [he] at hmem)
  rw [h1, h2]
  exact mul_inv_cancel₀ (by exact_mod_cast hS_pos.ne')

/-- Witness for C4 at a six-record table whose payment types are all
`"credit_card"`. -/
theorem pie_shares_sum_to_one_witness :
    (∃ r ∈ exTable6, r.payment_type ≠ "not_defined") ∧
    (pie_shares exTable6).sum = 1 :=
  ⟨by decide, pie_shares_sum_to_one exTable6 (by decide)⟩

/-- C6: the date-range selector only admits dates between January 1 and
December 31 of the latest purchase year, and the chart shows a bar for a
date exactly when a positive number of records of the latest year fall on
that date inside the selected range, the bar counting those records. -/
theorem selector_bounded_and_chart_respects_selection (t : Table)
    (s e dsel d : Date) (n : ℕ) :
    (date_input_admits (start_date (latest_year t)) (end_date (latest_year t)) dsel ↔
      dateLe (start_date (latest_year t)) dsel ∧
      dateLe dsel (end_date (latest_year t))) ∧
    ((d, n) ∈ orders_per_day t s e ↔
      0 < n ∧ n = (t.filter (fun r =>
        (r.order_purchase_timestamp.date == d)
          && ((Date.leB s r.order_purchase_timestamp.date
               && Date.leB r.order_purchase_timestamp.date e)
              && (r.order_purchase_timestamp.date.year == latest_year t)))).length) := by
  refine ⟨Iff.rfl, ?_⟩
  rw [mem_orders_per_day, length_filter_orders]

/-- C8: the orders-per-day chart counts records, not distinct orders — each
bar equals a `groupby` size over records; concretely, one order spanning two
records on one day yields a bar of height 2 while the distinct-order count
is 1. -/
theorem orders_chart_counts_records (t : Table) (s e d : Date) (n : ℕ)
    (h : (d, n) ∈ orders_per_day t s e) :
    n = (t.filter (fun r =>
        (r.order_purchase_timestamp.date == d)
          && ((Date.leB s r.order_purchase_timestamp.date
               && Date.leB r.order_purchase_timestamp.date e)
              && (r.order_purchase_timestamp.date.year == latest_year t)))).length ∧
    orders_per_day exTable2o (start_date 2017) (end_date 2017)
      = [(⟨2017, 5, 3⟩, 2)] ∧
    number_of_orders exTable2o = 1 := by
  refine ⟨?_, by decide, by decide⟩
  rw [← length_filter_orders]
  exact ((mem_orders_per_day t s e d n).mp h).2

/-- Witness for C8 at the two-record, one-order table. -/
theorem orders_chart_counts_records_witness :
    ((⟨2017, 5, 3⟩, 2) ∈ orders_per_day exTable2o (start_date 2017) (end_date 2017)) ∧
    (2 = (exTable2o.filter (fun r =>
        (r.order_purchase_timestamp.date == (⟨2017, 5, 3⟩ : Date))
          && ((Date.leB (start_date 2017) r.order_purchase_timestamp.date
               && Date.leB r.order_purchase_timestamp.date (end_date 2017))
              && (r.order_purchase_timestamp.date.year == latest_year exTable2o)))).length ∧
     orders_per_day exTable2o (start_date 2017) (end_date 2017)
       = [(⟨2017, 5, 3⟩, 2)] ∧
     number_of_orders exTable2o = 1) :=
  ⟨by decide, orders_chart_counts_records exTable2o
    (start_date 2017) (end_date 2017) ⟨2017, 5, 3⟩ 2 (by decide)⟩

/-- C10: the payment legend is hard-coded to four fixed (label, color) rows
for every table; the pie slices take their labels from the filtered data's
group order; and legend and slices coincide exactly when the filtered data's
payment types are `credit_card`, `boleto`, `voucher`, `debit_card` in that
group order. -/
theorem payment_legend_hardcoded (t : Table) :
    (display_payment_distribution t).1.legend = legendEntries ∧
    ((display_payment_distribution t).1.slices).map Prod.fst
      = (filtered_payment_type t).map Prod.fst ∧
    ((display_payment_distribution t).1.slices = legendEntries ↔
      (filtered_payment_type t).map Prod.fst
        = ["credit_card", "boleto", "voucher", "debit_card"]) := by
  refine ⟨rfl, pie_labels t, ?_, ?_⟩
  · intro h
    rw [← pie_labels t]
    exact congrArg (List.map Prod.fst) h
  · intro h
    show pie_slices t = legendEntries
    rcases hfe : filtered_payment_type t with
        _ | ⟨q0, _ | ⟨q1, _ | ⟨q2, _ | ⟨q3, _ | ⟨q4, rest⟩⟩⟩⟩⟩ <;>
      rw [hfe] at h <;> simp at h
    obtain ⟨h0, h1, h2, h3⟩ := h
    rw [pie_slices_of_four t q0 q1 q2 q3 hfe, h0, h1, h2, h3]
    rfl

end Dashboard
